import Mathlib

/-!
# Verification of the grok-4-cli agent action-orchestration core

Shallow embedding of the repository's hard core:
* `lib/agent.js`  — `Task`, `TaskManager` (task bookkeeping, dependencies, progress),
* `lib/shell.js`  — `ShellSession.execute` / `_handleCd`, `ShellManager`,
* `lib/tools.js`  — `ParallelToolExecutor.executeParallel` / `executeWithDependencies` /
  `executeSequential`.

JavaScript `Map`s are embedded as insertion-ordered association lists with the exact
`Map.set` / `Map.get` / `Map.delete` / `Map.has` semantics (set replaces in place,
otherwise appends).  Machine time (`Date.now()`) is threaded as an explicit `Nat`
parameter.  Subprocess behaviour is an explicit parameter (`ProcBehavior`), and the
asynchronous resolution of `execute`'s promise is recorded as an explicit
`resolveTime` in the returned trace.
-/

namespace GrokCli

/-! ## JavaScript Map embedding -/

/-- `Map.get`: first (and only) binding of the key, if any. -/
def jsMapGet {κ α : Type} [DecidableEq κ] : List (κ × α) → κ → Option α
  | [], _ => none
  | (k', v') :: rest, k => if k' = k then some v' else jsMapGet rest k

/-- `Map.set`: replace the binding in place keeping insertion order, else append. -/
def jsMapSet {κ α : Type} [DecidableEq κ] : List (κ × α) → κ → α → List (κ × α)
  | [], k, v => [(k, v)]
  | (k', v') :: rest, k, v =>
    if k' = k then (k, v) :: rest else (k', v') :: jsMapSet rest k v

/-- `Map.delete`: remove the binding of the key, if present. -/
def jsMapDelete {κ α : Type} [DecidableEq κ] : List (κ × α) → κ → List (κ × α)
  | [], _ => []
  | (k', v') :: rest, k => if k' = k then rest else (k', v') :: jsMapDelete rest k

/-- `Map.has`. -/
def jsMapHas {κ α : Type} [DecidableEq κ] (m : List (κ × α)) (k : κ) : Bool :=
  (jsMapGet m k).isSome

theorem jsMapGet_set_self {κ α : Type} [DecidableEq κ] (m : List (κ × α)) (k : κ) (v : α) :
    jsMapGet (jsMapSet m k v) k = some v := by
  induction m with
  | nil => simp [jsMapSet, jsMapGet]
  | cons p rest ih =>
    by_cases h : p.1 = k
    · simp [jsMapSet, jsMapGet, h]
    · simp [jsMapSet, jsMapGet, h, ih]

theorem jsMapGet_set_ne {κ α : Type} [DecidableEq κ] (m : List (κ × α)) (k k' : κ) (v : α)
    (h : k ≠ k') : jsMapGet (jsMapSet m k v) k' = jsMapGet m k' := by
  induction m with
  | nil => simp [jsMapSet, jsMapGet, h]
  | cons p rest ih =>
    by_cases hp : p.1 = k
    · simp [jsMapSet, jsMapGet, hp, h]
    · simp [jsMapSet, jsMapGet, hp, ih]

theorem jsMapGet_delete_ne {κ α : Type} [DecidableEq κ] (m : List (κ × α)) (k k' : κ)
    (h : k ≠ k') : jsMapGet (jsMapDelete m k) k' = jsMapGet m k' := by
  induction m with
  | nil => simp [jsMapDelete]
  | cons p rest ih =>
    by_cases hp : p.1 = k
    · have hne : p.1 ≠ k' := by rw [hp]; exact h
      simp [jsMapDelete, jsMapGet, hp, hne, h]
    · simp [jsMapDelete, jsMapGet, hp, ih]

theorem jsMapHas_set {κ α : Type} [DecidableEq κ] (m : List (κ × α)) (k k' : κ) (v : α)
    (h : jsMapHas m k' = true) : jsMapHas (jsMapSet m k v) k' = true := by
  by_cases hk : k = k'
  · subst hk
    simp [jsMapHas, jsMapGet_set_self]
  · simpa [jsMapHas, jsMapGet_set_ne m k k' v hk] using h

/-! ## Task model — `lib/agent.js` (`src/unnamed/part_000`) -/

/-- `TaskStatus` enumeration. -/
inductive TaskStatus where
  | pending
  | in_progress
  | completed
  | failed
  | blocked
  deriving DecidableEq, Repr

/-- A `Task` object.  `result`/`error`/`metadata` payloads are modelled as opaque
strings; `startTime`/`endTime` as `Option Nat` milliseconds (`null` = `none`). -/
structure Task where
  id : String
  description : String
  activeForm : String
  status : TaskStatus
  dependencies : List String
  result : Option String
  error : Option String
  startTime : Option Nat
  endTime : Option Nat
  metadata : List (String × String)
  deriving DecidableEq, Repr

/-- Options object accepted by `new Task(...)` / `TaskManager.addTask`. -/
structure TaskOptions where
  id : Option String := none
  activeForm : Option String := none
  status : Option TaskStatus := none
  dependencies : List String := []
  metadata : List (String × String) := []
  deriving DecidableEq, Repr

/-- The `Task` constructor. -/
def Task.create (id description : String) (opts : TaskOptions) : Task :=
  { id := id
    description := description
    activeForm := opts.activeForm.getD (description ++ "...")
    status := opts.status.getD TaskStatus.pending
    dependencies := opts.dependencies
    result := none
    error := none
    startTime := none
    endTime := none
    metadata := opts.metadata }

/-- `Task.start()`: unconditionally sets `in_progress` and stamps `startTime`. -/
def Task.start (t : Task) (now : Nat) : Task :=
  { t with status := TaskStatus.in_progress, startTime := some now }

/-- `Task.complete(result)`: unconditionally sets `completed`. -/
def Task.complete (t : Task) (result : Option String) (now : Nat) : Task :=
  { t with status := TaskStatus.completed, result := result, endTime := some now }

/-- `Task.fail(error)`: unconditionally sets `failed`. -/
def Task.fail (t : Task) (error : Option String) (now : Nat) : Task :=
  { t with status := TaskStatus.failed, error := error, endTime := some now }

/-- `Task.block(reason)`: unconditionally sets `blocked`. -/
def Task.block (t : Task) (reason : Option String) : Task :=
  { t with status := TaskStatus.blocked, error := reason }

/-- `TaskManager` state: `tasks` Map, insertion-order `taskOrder` array, `nextId`. -/
structure TaskManager where
  tasks : List (String × Task)
  taskOrder : List String
  nextId : Nat
  deriving DecidableEq, Repr

/-- `new TaskManager()`. -/
def TaskManager.init : TaskManager :=
  { tasks := [], taskOrder := [], nextId := 1 }

/-- `TaskManager.getTask(id)`. -/
def TaskManager.getTask (tm : TaskManager) (id : String) : Option Task :=
  jsMapGet tm.tasks id

/-- `Task.canExecute(taskManager)`: pending, and every dependency id resolves to a
completed task. -/
def Task.canExecute (t : Task) (tm : TaskManager) : Bool :=
  decide (t.status = TaskStatus.pending) &&
    t.dependencies.all (fun depId =>
      match tm.getTask depId with
      | some dep => decide (dep.status = TaskStatus.completed)
      | none => false)

/-- `TaskManager.addTask(description, options)`.  `options.id || ('task_' + nextId++)`:
the explicit id is used as given when truthy (non-empty); `nextId` is incremented only
when the id is generated.  There is no duplicate-id check: `tasks.set` overwrites and
`taskOrder.push` appends unconditionally. -/
def TaskManager.addTask (tm : TaskManager) (description : String) (opts : TaskOptions) :
    Task × TaskManager :=
  let idGen : String × Nat :=
    match opts.id with
    | some i => if i = "" then ("task_" ++ toString tm.nextId, tm.nextId + 1) else (i, tm.nextId)
    | none => ("task_" ++ toString tm.nextId, tm.nextId + 1)
  let task := Task.create idGen.1 description opts
  (task,
    { tm with
        tasks := jsMapSet tm.tasks idGen.1 task
        taskOrder := tm.taskOrder ++ [idGen.1]
        nextId := idGen.2 })

/-- `TaskManager.updateTaskStatus(id, status, data)` dispatch data. -/
structure UpdateData where
  result : Option String := none
  error : Option String := none
  reason : Option String := none
  deriving DecidableEq, Repr

/-- `TaskManager.updateTaskStatus(id, status, data)`: `false` for an unknown id,
otherwise dispatches on the requested status with no precondition on the current one
and returns `true`. -/
def TaskManager.updateTaskStatus (tm : TaskManager) (id : String) (status : TaskStatus)
    (data : UpdateData) (now : Nat) : Bool × TaskManager :=
  match jsMapGet tm.tasks id with
  | none => (false, tm)
  | some task =>
    let task' :=
      match status with
      | TaskStatus.in_progress => task.start now
      | TaskStatus.completed => task.complete data.result now
      | TaskStatus.failed => task.fail data.error now
      | TaskStatus.blocked => task.block data.reason
      | TaskStatus.pending => { task with status := TaskStatus.pending }
    (true, { tm with tasks := jsMapSet tm.tasks id task' })

/-- `TaskManager.startTask(id)`. -/
def TaskManager.startTask (tm : TaskManager) (id : String) (now : Nat) : Bool × TaskManager :=
  tm.updateTaskStatus id TaskStatus.in_progress {} now

/-- `TaskManager.completeTask(id, result)`. -/
def TaskManager.completeTask (tm : TaskManager) (id : String) (result : Option String)
    (now : Nat) : Bool × TaskManager :=
  tm.updateTaskStatus id TaskStatus.completed { result := result } now

/-- `TaskManager.failTask(id, error)`. -/
def TaskManager.failTask (tm : TaskManager) (id : String) (error : Option String)
    (now : Nat) : Bool × TaskManager :=
  tm.updateTaskStatus id TaskStatus.failed { error := error } now

/-- `TaskManager.getAllTasks()`: tasks in `taskOrder` order (every id in `taskOrder`
is a key of `tasks` in all reachable states). -/
def TaskManager.getAllTasks (tm : TaskManager) : List Task :=
  tm.taskOrder.filterMap (jsMapGet tm.tasks)

/-- `TaskManager.getNextExecutableTask()`: first task in insertion order satisfying
`canExecute`. -/
def TaskManager.getNextExecutableTask (tm : TaskManager) : Option Task :=
  tm.getAllTasks.find? (fun t => t.canExecute tm)

/-- `getProgress()` result object. -/
structure Progress where
  total : Nat
  completed : Nat
  inProgress : Nat
  failed : Nat
  blocked : Nat
  pending : Nat
  percentage : Nat
  deriving DecidableEq, Repr

/-- `Math.round((completed / total) * 100)` on exact rationals: round half away
from zero, here half up since the counts are nonnegative. -/
def jsRoundPct (completed total : Nat) : Nat :=
  (200 * completed + total) / (2 * total)

/-- `TaskManager.getProgress()`. -/
def TaskManager.getProgress (tm : TaskManager) : Progress :=
  let all := tm.getAllTasks
  let completed := (all.filter (fun t => decide (t.status = TaskStatus.completed))).length
  { total := all.length
    completed := completed
    inProgress := (all.filter (fun t => decide (t.status = TaskStatus.in_progress))).length
    failed := (all.filter (fun t => decide (t.status = TaskStatus.failed))).length
    blocked := (all.filter (fun t => decide (t.status = TaskStatus.blocked))).length
    pending := (all.filter (fun t => decide (t.status = TaskStatus.pending))).length
    percentage := if 0 < all.length then jsRoundPct completed all.length else 0 }

/-! ## String helpers over `List Char`

Core `String` functions (`trim`, `startsWith`, …) are implemented on `Substring`
positions and do not reduce in the kernel, so the JavaScript string manipulation is
embedded on the character list `String.data` instead. -/

/-- JavaScript `\s` on the ASCII whitespace actually occurring in shell commands. -/
def isWsChar (c : Char) : Bool :=
  c = ' ' || c = '\t' || c = '\r' || c = '\n'

/-- `String.prototype.trim()`. -/
def trimChars (cs : List Char) : List Char :=
  ((cs.dropWhile isWsChar).reverse.dropWhile isWsChar).reverse

/-- `startsWith`: is the second list an initial run of the first. -/
def startsWithChars : List Char → List Char → Bool
  | _, [] => true
  | [], _ :: _ => false
  | c :: cs, p :: ps => c = p && startsWithChars cs ps

/-- The two quote characters of `/^["']|["']$/`. -/
def quoteChars : List Char := ['"', Char.ofNat 39]

/-- `targetDir.replace(/^["']|["']$/g, '')`: strip one leading and one trailing
quote character, each independently if present. -/
def stripQuoteChars (cs : List Char) : List Char :=
  let s1 :=
    match cs with
    | c :: rest => if quoteChars.contains c then rest else cs
    | [] => []
  match s1.getLast? with
  | some c => if quoteChars.contains c then s1.dropLast else s1
  | none => s1

/-- Split a path into components at `/`. -/
def splitSlash : List Char → List (List Char)
  | [] => [[]]
  | c :: rest =>
    let r := splitSlash rest
    if c = '/' then [] :: r
    else
      match r with
      | h :: t => (c :: h) :: t
      | [] => [[c]]

/-- Component processing of POSIX `path.resolve`: drop empty and `.` components,
`..` pops (staying at the root when already there), others push. -/
def resolveStack (comps : List (List Char)) : List (List Char) :=
  comps.foldl
    (fun st c =>
      if c = [] || c = ['.'] then st
      else if c = ['.', '.'] then st.dropLast
      else st ++ [c])
    []

/-- Join components below a leading `/`. -/
def joinSlash (stack : List (List Char)) : List Char :=
  '/' :: List.intercalate ['/'] stack

/-- POSIX `path.resolve(cwd, target)` for a non-absolute `target` and an absolute
session `cwd` (session cwds are always absolute: they start at `process.cwd()` and
are only ever replaced by resolved absolute paths). -/
def posixResolveChars (cwd target : List Char) : List Char :=
  joinSlash (resolveStack (splitSlash (cwd ++ '/' :: target)))

/-! ## Shell session model — `lib/shell.js` -/

/-- The target-path capture of `command.match(/cd\s+(.+)/)` followed by `.trim()`,
for a command whose trimmed form starts with `cd ` (the condition under which
`execute` routes to `_handleCd`): text after `cd`, leading whitespace dropped,
up to the end of the line, trimmed. -/
def cdCapture (command : String) : String :=
  let t := trimChars command.data
  let afterWs := (t.drop 2).dropWhile isWsChar
  ⟨trimChars (afterWs.takeWhile (fun c => decide (c ≠ '\n')))⟩

/-- Quote stripping then `~` expansion (`targetDir.replace('~', HOME)` replaces the
first occurrence, which is at position 0 when the target starts with `~`). -/
def cdTarget (home arg : String) : String :=
  let t := stripQuoteChars arg.data
  match t with
  | c :: rest => if c = '~' then ⟨home.data ++ rest⟩ else ⟨t⟩
  | [] => ⟨t⟩

/-- `path.isAbsolute` (POSIX). -/
def isAbsolutePath (s : String) : Bool :=
  startsWithChars s.data ['/']

/-- The directory `_handleCd` stats and, on success, installs as the session `cwd`:
the quote-stripped, `~`-expanded target, taken as-is when absolute and resolved
against the session `cwd` otherwise. -/
def resolveCd (home cwd arg : String) : String :=
  let t := cdTarget home arg
  if isAbsolutePath t then t else ⟨posixResolveChars cwd.data t.data⟩

/-- Abstract filesystem for `fs.stat`: `none` when the stat throws (no such file),
`some isDir` when the path exists. -/
def Fs : Type := String → Option Bool

/-- The result object `execute` resolves with.  `exitCode = none` embeds `null`. -/
structure CmdResult where
  stdout : String
  stderr : String
  exitCode : Option Int
  duration : Nat
  background : Bool := false
  pid : Option Nat := none
  deriving DecidableEq, Repr

/-- A `BackgroundProcessRecord` as first registered (output chunks and completion
are appended asynchronously afterwards). -/
structure BgRecord where
  command : String
  startTime : Nat
  stdoutChunks : List String := []
  stderrChunks : List String := []
  completed : Bool := false
  exitCode : Option Int := none
  deriving DecidableEq, Repr

/-- `ShellSession._handleCd(command)`: returns the result object and the session
`cwd` after the call. -/
def handleCd (fs : Fs) (home cwd command : String) : CmdResult × String :=
  let arg := cdCapture command
  if arg = "" then
    ({ stdout := "", stderr := "Invalid cd command", exitCode := some 1, duration := 0 }, cwd)
  else
    let t := cdTarget home arg
    let newCwd := resolveCd home cwd arg
    match fs newCwd with
    | none =>
      ({ stdout := "", stderr := "cd: no such file or directory: " ++ t,
         exitCode := some 1, duration := 0 }, cwd)
    | some false =>
      ({ stdout := "", stderr := "cd: not a directory: " ++ t,
         exitCode := some 1, duration := 0 }, cwd)
    | some true =>
      ({ stdout := newCwd, stderr := "", exitCode := some 0, duration := 0 }, newCwd)

/-- Behaviour of the spawned subprocess: when it exits (ms after issue), with what
exit code and output, the `error.message` accompanying a nonzero exit, and its pid. -/
structure ProcBehavior where
  exitTime : Nat
  exitCode : Int
  stdout : String
  stderr : String
  errMessage : String
  pid : Nat
  deriving DecidableEq, Repr

/-- Observable trace of one `ShellSession.execute` call: the value the promise
resolves with, the time (ms after issue) at which it resolves, the session `cwd`
after the call, whether a subprocess was spawned, and the
`BackgroundProcessRecord` registered (at issue time) if any. -/
structure ExecTrace where
  result : CmdResult
  resolveTime : Nat
  newCwd : String
  spawned : Bool
  bgEntry : Option (String × BgRecord)
  deriving DecidableEq, Repr

/-- `ShellSession.execute(command, options)`.  The `cd` special case runs first and
spawns nothing.  Otherwise `exec` spawns the subprocess and its completion callback
— which only runs once the process has exited at `proc.exitTime` — resolves the
promise: with the background shape (`exitCode: null`, `background: true`, the pid)
when `options.background` is set, and with the error/success result otherwise.
With `background` set, the `BackgroundProcessRecord` is registered synchronously at
issue time `now` under the id `bg_<now>`. -/
def ShellSession.execute (fs : Fs) (home : String) (proc : ProcBehavior) (now : Nat)
    (cwd command : String) (background : Bool) : ExecTrace :=
  if startsWithChars (trimChars command.data) ['c', 'd', ' '] then
    let rc := handleCd fs home cwd command
    { result := rc.1, resolveTime := 0, newCwd := rc.2, spawned := false, bgEntry := none }
  else if background then
    { result :=
        { stdout := "", stderr := "", exitCode := none, duration := 0,
          background := true, pid := some proc.pid },
      resolveTime := proc.exitTime, newCwd := cwd, spawned := true,
      bgEntry := some ("bg_" ++ toString now, { command := command, startTime := now }) }
  else if proc.exitCode ≠ 0 then
    { result :=
        { stdout := proc.stdout,
          stderr := if proc.stderr = "" then proc.errMessage else proc.stderr,
          exitCode := some proc.exitCode, duration := proc.exitTime },
      resolveTime := proc.exitTime, newCwd := cwd, spawned := true, bgEntry := none }
  else
    { result :=
        { stdout := proc.stdout, stderr := proc.stderr, exitCode := some 0,
          duration := proc.exitTime },
      resolveTime := proc.exitTime, newCwd := cwd, spawned := true, bgEntry := none }

/-! ## Session manager model — `ShellManager` in `lib/shell.js` -/

/-- A `ShellSession` as owned by the manager.  `env` and `history` are untouched by
the managed operations we verify and are omitted; `cwd` and the background-process
registry are the mutable state. -/
structure ShellSession where
  id : String
  cwd : String
  backgroundProcesses : List (String × BgRecord)
  deriving DecidableEq, Repr

/-- `new ShellSession(id, options)` with `options.cwd || process.cwd()` already
resolved to `cwd`. -/
def ShellSession.create (id cwd : String) : ShellSession :=
  { id := id, cwd := cwd, backgroundProcesses := [] }

/-- `ShellManager` state. -/
structure ShellManager where
  sessions : List (String × ShellSession)
  defaultSessionId : String
  deriving DecidableEq, Repr

/-- `new ShellManager()`: sets `defaultSessionId = 'default'` and immediately
creates the default session (`cwd0` is `process.cwd()`). -/
def ShellManager.init (cwd0 : String) : ShellManager :=
  { sessions := jsMapSet [] "default" (ShellSession.create "default" cwd0)
    defaultSessionId := "default" }

/-- `id || this.defaultSessionId`: `null`/omitted and the empty string are falsy
and resolve to the default id. -/
def ShellManager.resolveId (m : ShellManager) : Option String → String
  | none => m.defaultSessionId
  | some s => if s = "" then m.defaultSessionId else s

/-- `ShellManager.getSession(id)`: return the named session, lazily creating it. -/
def ShellManager.getSession (m : ShellManager) (id : Option String) (cwd0 : String) :
    ShellSession × ShellManager :=
  let sid := m.resolveId id
  match jsMapGet m.sessions sid with
  | some s => (s, m)
  | none =>
    let s := ShellSession.create sid cwd0
    (s, { m with sessions := jsMapSet m.sessions sid s })

/-- `ShellManager.deleteSession(id)`: throws (left as `Except.error`) on the default
id before touching anything; otherwise kills the session's background processes
(which only empties state that is removed with it) and deletes the session,
returning whether it existed. -/
def ShellManager.deleteSession (m : ShellManager) (id : String) :
    Except String Bool × ShellManager :=
  if id = m.defaultSessionId then
    (Except.error "Cannot delete default session", m)
  else
    match jsMapGet m.sessions id with
    | some _ => (Except.ok true, { m with sessions := jsMapDelete m.sessions id })
    | none => (Except.ok false, m)

/-- One externally issued manager operation: a `getSession` (also reached through
`execute`, `executeStreaming`, `getCwd`), a `deleteSession`, or any
session-mutating command routed through `getSession` (cwd update by `cd`,
history append, background-registry change), abstracted as an arbitrary
mutation `f` of the routed session. -/
inductive MgrOp where
  | getSession (id : Option String) (cwd0 : String)
  | deleteSession (id : String)
  | onSession (id : Option String) (cwd0 : String) (f : ShellSession → ShellSession)

/-- Apply one operation to the manager state. -/
def MgrOp.apply (m : ShellManager) : MgrOp → ShellManager
  | MgrOp.getSession id c => (m.getSession id c).2
  | MgrOp.deleteSession id => (m.deleteSession id).2
  | MgrOp.onSession id c f =>
    let sm := m.getSession id c
    { sm.2 with sessions := jsMapSet sm.2.sessions (m.resolveId id) (f sm.1) }

/-- All reachable manager states: a constructed manager with any sequence of
operations applied. -/
def ShellManager.run (cwd0 : String) (ops : List MgrOp) : ShellManager :=
  ops.foldl MgrOp.apply (ShellManager.init cwd0)

/-! ## Parallel / dependency / sequential executors — `lib/tools.js` -/

/-- A transient tool call.  `args` is an opaque payload; `dependencies` are indices
into the same batch. -/
structure ToolCall where
  name : String
  args : String := ""
  dependencies : List Nat := []
  deriving DecidableEq, Repr, Inhabited

/-- An entry of the results array built by `executeParallel`/`executeSequential`:
`{success: true, result, tool}` from the `then` branch or
`{success: false, error, tool}` from the `catch` branch. -/
structure BatchEntry where
  success : Bool
  result : Option String := none
  error : Option String := none
  tool : String
  deriving DecidableEq, Repr

/-- The entry recorded for one call: the executing capability either resolves
(`Except.ok`) or rejects (`Except.error`, the JavaScript throw). -/
def callEntry (ex : ToolCall → Except String String) (c : ToolCall) : BatchEntry :=
  match ex c with
  | Except.ok r => { success := true, result := some r, tool := c.name }
  | Except.error e => { success := false, error := some e, tool := c.name }

/-- `ParallelToolExecutor.executeSequential(toolCalls)`: strictly in order, pushing
a success entry per resolved call; the first rejection pushes its failure entry and
breaks out of the loop. -/
def ParallelToolExecutor.executeSequential (ex : ToolCall → Except String String) :
    List ToolCall → List BatchEntry
  | [] => []
  | c :: rest =>
    match ex c with
    | Except.ok r =>
      { success := true, result := some r, tool := c.name } ::
        ParallelToolExecutor.executeSequential ex rest
    | Except.error e => [{ success := false, error := some e, tool := c.name }]

/-- The result-array writes of `executeParallel`: every queued call, whenever its
promise settles, writes its entry at its original index
(`results[call.index] = ...`).  `order` is the sequence of settlement events. -/
def parWriteFold (ex : ToolCall → Except String String) (calls : List ToolCall)
    (order : List Nat) (acc : List (Option BatchEntry)) : List (Option BatchEntry) :=
  order.foldl (fun a i => a.set i (some (callEntry ex (calls.getD i default)))) acc

/-- `ParallelToolExecutor.executeParallel(toolCalls)`: the results array starts as
`new Array(toolCalls.length)` and each call's settlement writes its own index;
the worker recursion guarantees every queue entry is shifted and settled exactly
once, so a complete run is a fold over a permutation `order` of the indices. -/
def ParallelToolExecutor.executeParallel (ex : ToolCall → Except String String)
    (calls : List ToolCall) (order : List Nat) : List (Option BatchEntry) :=
  parWriteFold ex calls order (List.replicate calls.length none)

/-- The ready set of one round of `executeWithDependencies`: indices not yet
executed whose dependency indices have all executed, in batch order. -/
def readySet (calls : List ToolCall) (executed : List Nat) : List Nat :=
  (calls.enum.filter
    (fun p => !(executed.contains p.1) && p.2.dependencies.all (fun d => executed.contains d))).map
    Prod.fst

/-- Outcome of `executeWithDependencies`: the returned array (or the thrown error)
together with the indices actually executed, in launch order. -/
structure DepRun where
  outcome : Except String (List (Option String))
  execLog : List Nat
  resultsMap : List (Nat × String)
  deriving Repr

/-- The `while (executed.size < toolCalls.length)` loop: compute the round's ready
set; throw `CircularOrMissingDependency` when it is empty; otherwise execute the
whole ready set and loop.  `fuel` bounds the rounds (each non-throwing round
executes at least one call, so `calls.length + 1` rounds always suffice). -/
def depLoop (ex : ToolCall → String) (calls : List ToolCall) :
    Nat → List Nat → List (Nat × String) → DepRun
  | fuel, executed, results =>
    if executed.length < calls.length then
      let ready := readySet calls executed
      if ready.isEmpty then
        { outcome := Except.error "Cannot execute tools: circular or missing dependencies",
          execLog := executed, resultsMap := results }
      else
        match fuel with
        | 0 =>
          { outcome := Except.error "out of fuel", execLog := executed, resultsMap := results }
        | fuel' + 1 =>
          depLoop ex calls fuel' (executed ++ ready)
            (results ++ ready.map (fun i => (i, ex (calls.getD i default))))
    else
      { outcome := Except.ok ((List.range calls.length).map (jsMapGet results)),
        execLog := executed, resultsMap := results }

/-- `ParallelToolExecutor.executeWithDependencies(toolCalls)`. -/
def ParallelToolExecutor.executeWithDependencies (ex : ToolCall → String)
    (calls : List ToolCall) : DepRun :=
  depLoop ex calls (calls.length + 1) [] []

/-! ## Claim C1 — background execution -/

/-- C1: evaluation of `ShellSession.execute` at the failing input
`execute("sleep 5", {background: true})` with the subprocess exiting after 5000 ms.
The resolved value has `exitCode = null`, `background = true` and the pid, and the
`BackgroundProcessRecord` is registered at issue time — but the promise resolves
only at 5000 ms, the moment the subprocess exits, because the `resolve` sits inside
`exec`'s completion callback: `execute` does not return before the subprocess
completes, contradicting the claim (and the code's own comment). -/
theorem C1_background_resolves_only_at_exit :
    (ShellSession.execute (fun _ => some true) "/root"
        { exitTime := 5000, exitCode := 0, stdout := "", stderr := "", errMessage := "",
          pid := 1234 } 77 "/root" "sleep 5" true).result.exitCode = none ∧
    (ShellSession.execute (fun _ => some true) "/root"
        { exitTime := 5000, exitCode := 0, stdout := "", stderr := "", errMessage := "",
          pid := 1234 } 77 "/root" "sleep 5" true).result.background = true ∧
    (ShellSession.execute (fun _ => some true) "/root"
        { exitTime := 5000, exitCode := 0, stdout := "", stderr := "", errMessage := "",
          pid := 1234 } 77 "/root" "sleep 5" true).result.pid = some 1234 ∧
    (ShellSession.execute (fun _ => some true) "/root"
        { exitTime := 5000, exitCode := 0, stdout := "", stderr := "", errMessage := "",
          pid := 1234 } 77 "/root" "sleep 5" true).bgEntry =
      some ("bg_77", { command := "sleep 5", startTime := 77 }) ∧
    (ShellSession.execute (fun _ => some true) "/root"
        { exitTime := 5000, exitCode := 0, stdout := "", stderr := "", errMessage := "",
          pid := 1234 } 77 "/root" "sleep 5" true).resolveTime = 5000 ∧
    ¬ (ShellSession.execute (fun _ => some true) "/root"
        { exitTime := 5000, exitCode := 0, stdout := "", stderr := "", errMessage := "",
          pid := 1234 } 77 "/root" "sleep 5" true).resolveTime < 5000 := by
  decide

/-! ## Claim C2 — duplicate explicit task id -/

/-- A task manager already holding a task under the explicit id `a`. -/
def dupBase : TaskManager :=
  (TaskManager.init.addTask "first" { id := some "a" }).2

/-- C2 counterexample: `addTask("second", {id: "a"})` on a manager that already has
a task `a` does not fail and does not leave the collection unchanged — the stored
task at `a` becomes the new one and `a` is appended to the order a second time. -/
theorem C2_counterexample :
    (dupBase.addTask "second" { id := some "a" }).2 ≠ dupBase ∧
    (dupBase.addTask "second" { id := some "a" }).2.taskOrder = ["a", "a"] ∧
    ((jsMapGet (dupBase.addTask "second" { id := some "a" }).2.tasks "a").map
        Task.description) = some "second" := by
  decide

/-- C2 amended: `addTask` with an explicitly given non-empty id that already names
an existing task does not fail with `DuplicateId`; it creates the new task under
that id, overwrites the map entry, appends the id to the task order again, and
leaves `nextId` untouched. -/
theorem C2_amended_overwrite (tm : TaskManager) (description i : String)
    (hne : i ≠ "") (_hdup : jsMapHas tm.tasks i = true) :
    ((tm.addTask description { id := some i }).1.id = i) ∧
    jsMapGet (tm.addTask description { id := some i }).2.tasks i =
      some (tm.addTask description { id := some i }).1 ∧
    (tm.addTask description { id := some i }).2.taskOrder = tm.taskOrder ++ [i] ∧
    (tm.addTask description { id := some i }).2.nextId = tm.nextId := by
  simp [TaskManager.addTask, hne, jsMapGet_set_self, Task.create]

/-- C2 amended, witnessed at a concrete duplicate insertion. -/
theorem C2_amended_witness :
    ("a" ≠ "" ∧ jsMapHas dupBase.tasks "a" = true) ∧
    (((dupBase.addTask "second" { id := some "a" }).1.id = "a") ∧
      jsMapGet (dupBase.addTask "second" { id := some "a" }).2.tasks "a" =
        some (dupBase.addTask "second" { id := some "a" }).1 ∧
      (dupBase.addTask "second" { id := some "a" }).2.taskOrder = dupBase.taskOrder ++ ["a"] ∧
      (dupBase.addTask "second" { id := some "a" }).2.nextId = dupBase.nextId) :=
  ⟨⟨by decide, by decide⟩,
    C2_amended_overwrite dupBase "second" "a" (by decide) (by decide)⟩

/-! ## Claim C8 — dependency gating and progress -/

/-- `addTask("A")` on a fresh manager. -/
def c8Step1 : Task × TaskManager := TaskManager.init.addTask "A" {}

/-- Then `addTask("B", {dependencies: [A.id]})`. -/
def c8Tm2 : TaskManager := (c8Step1.2.addTask "B" { dependencies := [c8Step1.1.id] }).2

/-- Then `startTask(A.id)`. -/
def c8Tm3 : TaskManager := (c8Tm2.startTask c8Step1.1.id 10).2

/-- Then `completeTask(A.id)`. -/
def c8Tm4 : TaskManager := (c8Tm3.completeTask c8Step1.1.id none 20).2

/-- C8 counterexample: while A is `in_progress`, `getNextExecutableTask()` returns
no task at all — not A, as the claim states — because `canExecute` requires
`status == pending`. -/
theorem C8_counterexample :
    ((jsMapGet c8Tm3.tasks "task_1").map Task.status = some TaskStatus.in_progress) ∧
    c8Tm3.getNextExecutableTask = none := by
  decide

/-- C8 amended: while A is pending, `getNextExecutableTask()` returns A (B's
dependency is unmet); while A is `in_progress` it returns no task; after A is
completed it returns B; and `getProgress()` then reports `completed = 1`,
`total = 2`, `percentage = 50`. -/
theorem C8_amended_scenario :
    (c8Tm2.getNextExecutableTask.map Task.id = some "task_1") ∧
    (c8Tm2.getNextExecutableTask.map Task.description = some "A") ∧
    c8Tm3.getNextExecutableTask = none ∧
    (c8Tm4.getNextExecutableTask.map Task.id = some "task_2") ∧
    (c8Tm4.getNextExecutableTask.map Task.description = some "B") ∧
    c8Tm4.getProgress.completed = 1 ∧
    c8Tm4.getProgress.total = 2 ∧
    c8Tm4.getProgress.percentage = 50 := by
  decide

/-! ## Claim C10 — status transitions have no precondition -/

/-- C10: for every existing task id, regardless of the task's current status,
`startTask` sets `in_progress`, `completeTask` sets `completed`, `failTask` sets
`failed`, and `updateTaskStatus` returns `true` for every requested status. -/
theorem C10_no_status_preconditions (tm : TaskManager) (id : String) (now : Nat)
    (h : jsMapHas tm.tasks id = true) :
    ((tm.startTask id now).1 = true ∧
      (jsMapGet (tm.startTask id now).2.tasks id).map Task.status =
        some TaskStatus.in_progress) ∧
    ((tm.completeTask id none now).1 = true ∧
      (jsMapGet (tm.completeTask id none now).2.tasks id).map Task.status =
        some TaskStatus.completed) ∧
    ((tm.failTask id none now).1 = true ∧
      (jsMapGet (tm.failTask id none now).2.tasks id).map Task.status =
        some TaskStatus.failed) ∧
    (∀ st : TaskStatus, (tm.updateTaskStatus id st {} now).1 = true) := by
  obtain ⟨t, ht⟩ : ∃ t, jsMapGet tm.tasks id = some t := by
    cases hg : jsMapGet tm.tasks id with
    | none => simp [jsMapHas, hg] at h
    | some t => exact ⟨t, rfl⟩
  refine ⟨?_, ?_, ?_, fun st => ?_⟩
  · simp [TaskManager.startTask, TaskManager.updateTaskStatus, ht, jsMapGet_set_self,
      Task.start]
  · simp [TaskManager.completeTask, TaskManager.updateTaskStatus, ht, jsMapGet_set_self,
      Task.complete]
  · simp [TaskManager.failTask, TaskManager.updateTaskStatus, ht, jsMapGet_set_self,
      Task.fail]
  · cases st <;> simp [TaskManager.updateTaskStatus, ht]

/-- A manager whose only task is already `completed`. -/
def c10Tm : TaskManager :=
  ((TaskManager.init.addTask "done" {}).2.completeTask "task_1" none 5).2

/-- C10, witnessed on a terminal (`completed`) task: `startTask` moves it back to
`in_progress`, `completeTask`/`failTask` re-stamp it, and `updateTaskStatus`
returns `true`. -/
theorem C10_witness :
    jsMapHas c10Tm.tasks "task_1" = true ∧
    (((c10Tm.startTask "task_1" 9).1 = true ∧
      (jsMapGet (c10Tm.startTask "task_1" 9).2.tasks "task_1").map Task.status =
        some TaskStatus.in_progress) ∧
    ((c10Tm.completeTask "task_1" none 9).1 = true ∧
      (jsMapGet (c10Tm.completeTask "task_1" none 9).2.tasks "task_1").map Task.status =
        some TaskStatus.completed) ∧
    ((c10Tm.failTask "task_1" none 9).1 = true ∧
      (jsMapGet (c10Tm.failTask "task_1" none 9).2.tasks "task_1").map Task.status =
        some TaskStatus.failed) ∧
    (∀ st : TaskStatus, (c10Tm.updateTaskStatus "task_1" st {} 9).1 = true)) :=
  ⟨by decide, C10_no_status_preconditions c10Tm "task_1" 9 (by decide)⟩

/-! ## Claims C6 / C7 — the `cd` special case -/

/-- C6: for every session and every `cd <path>` command whose resolved target does
not exist or is not a directory, `execute` returns exit code 1 with the
corresponding `InvalidDirectory`-class message, the session `cwd` is unchanged,
and no subprocess is spawned. -/
theorem C6_cd_error_atomic (fs : Fs) (home cwd command : String) (proc : ProcBehavior)
    (now : Nat) (bg : Bool)
    (hcd : startsWithChars (trimChars command.data) ['c', 'd', ' '] = true)
    (harg : cdCapture command ≠ "")
    (hbad : fs (resolveCd home cwd (cdCapture command)) = none ∨
      fs (resolveCd home cwd (cdCapture command)) = some false) :
    (ShellSession.execute fs home proc now cwd command bg).result.exitCode = some 1 ∧
    (ShellSession.execute fs home proc now cwd command bg).newCwd = cwd ∧
    (ShellSession.execute fs home proc now cwd command bg).spawned = false ∧
    (ShellSession.execute fs home proc now cwd command bg).result.stderr =
      (match fs (resolveCd home cwd (cdCapture command)) with
        | none => "cd: no such file or directory: " ++ cdTarget home (cdCapture command)
        | _ => "cd: not a directory: " ++ cdTarget home (cdCapture command)) := by
  rcases hbad with hb | hb <;>
    simp [ShellSession.execute, hcd, handleCd, harg, hb]

/-- A subprocess behaviour that is irrelevant to the `cd` special case. -/
def dummyProc : ProcBehavior :=
  { exitTime := 0, exitCode := 0, stdout := "", stderr := "", errMessage := "", pid := 1 }

/-- C6, witnessed at `cd /nope` against a filesystem without `/nope`. -/
theorem C6_witness :
    (startsWithChars (trimChars "cd /nope".data) ['c', 'd', ' '] = true ∧
      cdCapture "cd /nope" ≠ "" ∧
      (fun p => if p = "/tmp" then some true else none : Fs)
          (resolveCd "/h" "/start" (cdCapture "cd /nope")) = none) ∧
    ((ShellSession.execute (fun p => if p = "/tmp" then some true else none) "/h"
        dummyProc 0 "/start" "cd /nope" false).result.exitCode = some 1 ∧
      (ShellSession.execute (fun p => if p = "/tmp" then some true else none) "/h"
        dummyProc 0 "/start" "cd /nope" false).newCwd = "/start" ∧
      (ShellSession.execute (fun p => if p = "/tmp" then some true else none) "/h"
        dummyProc 0 "/start" "cd /nope" false).spawned = false ∧
      (ShellSession.execute (fun p => if p = "/tmp" then some true else none) "/h"
        dummyProc 0 "/start" "cd /nope" false).result.stderr =
        (match (fun p => if p = "/tmp" then some true else none : Fs)
            (resolveCd "/h" "/start" (cdCapture "cd /nope")) with
          | none => "cd: no such file or directory: " ++ cdTarget "/h" (cdCapture "cd /nope")
          | _ => "cd: not a directory: " ++ cdTarget "/h" (cdCapture "cd /nope"))) :=
  ⟨⟨by decide, by decide, by decide⟩,
    C6_cd_error_atomic (fun p => if p = "/tmp" then some true else none) "/h" "/start"
      "cd /nope" dummyProc 0 false (by decide) (by decide) (Or.inl (by decide))⟩

/-- C7: for every session and every `cd <path>` command whose target — after quote
stripping, `~` expansion and resolution against the session `cwd` — exists and is a
directory, `execute` installs the resolved path as the session `cwd`, returns it as
stdout with exit code 0 and duration 0, and spawns no subprocess. -/
theorem C7_cd_success (fs : Fs) (home cwd command : String) (proc : ProcBehavior)
    (now : Nat) (bg : Bool)
    (hcd : startsWithChars (trimChars command.data) ['c', 'd', ' '] = true)
    (harg : cdCapture command ≠ "")
    (hdir : fs (resolveCd home cwd (cdCapture command)) = some true) :
    (ShellSession.execute fs home proc now cwd command bg).newCwd =
      resolveCd home cwd (cdCapture command) ∧
    (ShellSession.execute fs home proc now cwd command bg).result.stdout =
      resolveCd home cwd (cdCapture command) ∧
    (ShellSession.execute fs home proc now cwd command bg).result.stderr = "" ∧
    (ShellSession.execute fs home proc now cwd command bg).result.exitCode = some 0 ∧
    (ShellSession.execute fs home proc now cwd command bg).result.duration = 0 ∧
    (ShellSession.execute fs home proc now cwd command bg).spawned = false := by
  simp [ShellSession.execute, hcd, handleCd, harg, hdir]

/-- C7, witnessed at `cd "~/proj"` (quoted, `~`-expanded, absolute after
expansion) from `cwd = /x`. -/
theorem C7_witness :
    (startsWithChars (trimChars ("cd \"~/proj\"").data) ['c', 'd', ' '] = true ∧
      cdCapture "cd \"~/proj\"" ≠ "" ∧
      (fun p => if p = "/home/u/proj" then some true else none : Fs)
          (resolveCd "/home/u" "/x" (cdCapture "cd \"~/proj\"")) = some true) ∧
    ((ShellSession.execute (fun p => if p = "/home/u/proj" then some true else none)
        "/home/u" dummyProc 0 "/x" "cd \"~/proj\"" false).newCwd =
      resolveCd "/home/u" "/x" (cdCapture "cd \"~/proj\"") ∧
      (ShellSession.execute (fun p => if p = "/home/u/proj" then some true else none)
        "/home/u" dummyProc 0 "/x" "cd \"~/proj\"" false).result.stdout =
        resolveCd "/home/u" "/x" (cdCapture "cd \"~/proj\"") ∧
      (ShellSession.execute (fun p => if p = "/home/u/proj" then some true else none)
        "/home/u" dummyProc 0 "/x" "cd \"~/proj\"" false).result.stderr = "" ∧
      (ShellSession.execute (fun p => if p = "/home/u/proj" then some true else none)
        "/home/u" dummyProc 0 "/x" "cd \"~/proj\"" false).result.exitCode =
        some 0 ∧
      (ShellSession.execute (fun p => if p = "/home/u/proj" then some true else none)
        "/home/u" dummyProc 0 "/x" "cd \"~/proj\"" false).result.duration = 0 ∧
      (ShellSession.execute (fun p => if p = "/home/u/proj" then some true else none)
        "/home/u" dummyProc 0 "/x" "cd \"~/proj\"" false).spawned = false) :=
  ⟨⟨by decide, by decide, by decide⟩,
    C7_cd_success (fun p => if p = "/home/u/proj" then some true else none) "/home/u" "/x"
      "cd \"~/proj\"" dummyProc 0 false (by decide) (by decide) (by decide)⟩

/-! ## Claim C9 — the protected default session -/

theorem mgrInv_apply (m : ShellManager) (op : MgrOp)
    (hd : m.defaultSessionId = "default")
    (hh : jsMapHas m.sessions "default" = true) :
    (MgrOp.apply m op).defaultSessionId = "default" ∧
      jsMapHas (MgrOp.apply m op).sessions "default" = true := by
  cases op with
  | getSession id c =>
    simp only [MgrOp.apply, ShellManager.getSession]
    cases hg : jsMapGet m.sessions (m.resolveId id) with
    | some s => exact ⟨hd, hh⟩
    | none => exact ⟨hd, jsMapHas_set _ _ _ _ hh⟩
  | deleteSession id =>
    simp only [MgrOp.apply, ShellManager.deleteSession]
    by_cases hid : id = m.defaultSessionId
    · simp only [hid, if_pos rfl]
      exact ⟨hd, hh⟩
    · rw [if_neg hid]
      cases hg : jsMapGet m.sessions id with
      | some s =>
        refine ⟨hd, ?_⟩
        have hne : id ≠ "default" := by rw [← hd]; exact hid
        simpa [jsMapHas, jsMapGet_delete_ne m.sessions id "default" hne] using hh
      | none => exact ⟨hd, hh⟩
  | onSession id c f =>
    simp only [MgrOp.apply, ShellManager.getSession]
    cases hg : jsMapGet m.sessions (m.resolveId id) with
    | some s => exact ⟨hd, jsMapHas_set _ _ _ _ hh⟩
    | none => exact ⟨hd, jsMapHas_set _ _ _ _ (jsMapHas_set _ _ _ _ hh)⟩

theorem mgrInv_foldl (ops : List MgrOp) :
    ∀ m : ShellManager, m.defaultSessionId = "default" →
      jsMapHas m.sessions "default" = true →
      ((ops.foldl MgrOp.apply m).defaultSessionId = "default" ∧
        jsMapHas (ops.foldl MgrOp.apply m).sessions "default" = true) := by
  induction ops with
  | nil => exact fun m h1 h2 => ⟨h1, h2⟩
  | cons op rest ih =>
    intro m h1 h2
    have h' := mgrInv_apply m op h1 h2
    simpa [List.foldl] using ih (MgrOp.apply m op) h'.1 h'.2

/-- C9: in every reachable state of a `ShellManager` — the constructed manager with
any sequence of `getSession` / `deleteSession` / session-mutating operations
applied — a session exists under the protected id `default`; `getSession` with an
omitted or empty id returns exactly that stored session without changing the
state; and `deleteSession('default')` throws `Cannot delete default session`
leaving the session collection unchanged. -/
theorem C9_default_session_invariant (cwd0 : String) (ops : List MgrOp) :
    jsMapHas (ShellManager.run cwd0 ops).sessions "default" = true ∧
    (∃ s, jsMapGet (ShellManager.run cwd0 ops).sessions "default" = some s ∧
      (∀ c, (ShellManager.run cwd0 ops).getSession none c = (s, ShellManager.run cwd0 ops)) ∧
      (∀ c, (ShellManager.run cwd0 ops).getSession (some "") c =
        (s, ShellManager.run cwd0 ops))) ∧
    (ShellManager.run cwd0 ops).deleteSession "default" =
      (Except.error "Cannot delete default session", ShellManager.run cwd0 ops) := by
  obtain ⟨hd, hh⟩ := mgrInv_foldl ops (ShellManager.init cwd0) rfl
    (by simp [ShellManager.init, jsMapHas, jsMapGet_set_self])
  have hd' : (ShellManager.run cwd0 ops).defaultSessionId = "default" := hd
  have hh' : jsMapHas (ShellManager.run cwd0 ops).sessions "default" = true := hh
  obtain ⟨s, hs⟩ : ∃ s, jsMapGet (ShellManager.run cwd0 ops).sessions "default" = some s := by
    cases hg : jsMapGet (ShellManager.run cwd0 ops).sessions "default" with
    | none => simp [jsMapHas, hg] at hh'
    | some s => exact ⟨s, rfl⟩
  refine ⟨hh', ⟨s, hs, fun c => ?_, fun c => ?_⟩, ?_⟩
  · simp [ShellManager.getSession, ShellManager.resolveId, hd', hs]
  · simp [ShellManager.getSession, ShellManager.resolveId, hd', hs]
  · simp [ShellManager.deleteSession, hd']

/-! ## Claim C3 — fail-fast sequential execution -/

theorem executeSequential_failfast_eq (ex : ToolCall → Except String String)
    (pre : List ToolCall) (c : ToolCall) (post : List ToolCall)
    (hok : ∀ c' ∈ pre, ∃ r, ex c' = Except.ok r)
    (herr : ∃ e, ex c = Except.error e) :
    ParallelToolExecutor.executeSequential ex (pre ++ c :: post) =
      (pre ++ [c]).map (callEntry ex) := by
  induction pre with
  | nil =>
    obtain ⟨e, he⟩ := herr
    simp [ParallelToolExecutor.executeSequential, he, callEntry]
  | cons a rest ih =>
    obtain ⟨r, hr⟩ := hok a (List.mem_cons_self a rest)
    have ih' := ih (fun c' hc' => hok c' (List.mem_cons_of_mem a hc'))
    simp [ParallelToolExecutor.executeSequential, hr, callEntry, ih']

/-- C3: `executeSequential` executes the calls strictly in input order; when the
first rejecting call is `c` (every call before it resolves), the returned array is
exactly the success entries for the calls before `c` followed by `c`'s failure
entry — `pre.length + 1` entries in all, so no call after the first failing one
has a result present, whatever follows it in the batch. -/
theorem C3_executeSequential_failfast (ex : ToolCall → Except String String)
    (pre : List ToolCall) (c : ToolCall) (post : List ToolCall)
    (hok : ∀ c' ∈ pre, ∃ r, ex c' = Except.ok r)
    (herr : ∃ e, ex c = Except.error e) :
    ParallelToolExecutor.executeSequential ex (pre ++ c :: post) =
      (pre ++ [c]).map (callEntry ex) ∧
    (ParallelToolExecutor.executeSequential ex (pre ++ c :: post)).length =
      pre.length + 1 := by
  have h := executeSequential_failfast_eq ex pre c post hok herr
  refine ⟨h, ?_⟩
  simp [h]

/-- The capability used by the executor witnesses: rejects on the tool named
`boom`, resolves otherwise. -/
def exBoom : ToolCall → Except String String := fun c =>
  if c.name = "boom" then Except.error "kaput" else Except.ok ("did " ++ c.name)

/-- C3, witnessed on the batch `[a, boom, z]`: the entry for `z` is absent. -/
theorem C3_witness :
    ((∀ c' ∈ [({ name := "a" } : ToolCall)], ∃ r, exBoom c' = Except.ok r) ∧
      (∃ e, exBoom { name := "boom" } = Except.error e)) ∧
    (ParallelToolExecutor.executeSequential exBoom
        ([({ name := "a" } : ToolCall)] ++ ({ name := "boom" } : ToolCall) ::
          [({ name := "z" } : ToolCall)]) =
      ([({ name := "a" } : ToolCall)] ++ [({ name := "boom" } : ToolCall)]).map
        (callEntry exBoom) ∧
    (ParallelToolExecutor.executeSequential exBoom
        ([({ name := "a" } : ToolCall)] ++ ({ name := "boom" } : ToolCall) ::
          [({ name := "z" } : ToolCall)])).length =
      [({ name := "a" } : ToolCall)].length + 1) :=
  ⟨⟨fun c' hc' => by
      simp only [List.mem_singleton] at hc'
      subst hc'
      exact ⟨"did a", rfl⟩,
    ⟨"kaput", rfl⟩⟩,
    C3_executeSequential_failfast exBoom [{ name := "a" }] { name := "boom" }
      [{ name := "z" }]
      (fun c' hc' => by
        simp only [List.mem_singleton] at hc'
        subst hc'
        exact ⟨"did a", rfl⟩)
      ⟨"kaput", rfl⟩⟩

/-! ## Claim C4 — dependency deadlock detection -/

/-- C4: whenever a round of the `executeWithDependencies` loop finds an empty ready
set while calls remain unexecuted, the whole batch fails with the
`CircularOrMissingDependency` error and the set of executed calls is exactly what
it already was — no call in or behind the stuck cycle is ever executed. -/
theorem C4_deadlock (ex : ToolCall → String) (calls : List ToolCall) (fuel : Nat)
    (executed : List Nat) (results : List (Nat × String))
    (hrem : executed.length < calls.length)
    (hempty : readySet calls executed = []) :
    depLoop ex calls fuel executed results =
      { outcome := Except.error "Cannot execute tools: circular or missing dependencies",
        execLog := executed, resultsMap := results } := by
  cases fuel <;> simp [depLoop, hrem, hempty]

/-- The executing capability used by the C4 witness. -/
def depEx : ToolCall → String := fun c => "ran " ++ c.name

/-- The mutually dependent batch `[A(deps=[1]), B(deps=[0])]`. -/
def c4Calls : List ToolCall :=
  [{ name := "A", dependencies := [1] }, { name := "B", dependencies := [0] }]

/-- C4, witnessed on the mutually dependent two-call batch: the very first round is
stuck, `executeWithDependencies` throws, and neither A nor B executes. -/
theorem C4_witness :
    (([] : List Nat).length < c4Calls.length ∧ readySet c4Calls [] = []) ∧
    depLoop depEx c4Calls (c4Calls.length + 1) [] [] =
      { outcome := Except.error "Cannot execute tools: circular or missing dependencies",
        execLog := [], resultsMap := [] } :=
  ⟨⟨by decide, by decide⟩,
    C4_deadlock depEx c4Calls (c4Calls.length + 1) [] [] (by decide) (by decide)⟩

/-! ## Claim C5 — index-aligned parallel results -/

theorem parWriteFold_getElem (ex : ToolCall → Except String String)
    (calls : List ToolCall) (order : List Nat) :
    ∀ (acc : List (Option BatchEntry)) (i : Nat),
      (parWriteFold ex calls order acc)[i]? =
        if i ∈ order ∧ i < acc.length
        then some (some (callEntry ex (calls.getD i default)))
        else acc[i]? := by
  induction order with
  | nil => intro acc i; simp [parWriteFold]
  | cons o rest ih =>
    intro acc i
    have step :
        parWriteFold ex calls (o :: rest) acc =
          parWriteFold ex calls rest
            (acc.set o (some (callEntry ex (calls.getD o default)))) := rfl
    rw [step, ih, List.length_set, List.getElem?_set]
    by_cases hi : i < acc.length
    · by_cases hmem : i ∈ rest
      · simp [hi, hmem]
      · by_cases ho : o = i
        · subst ho
          simp [hi, hmem]
        · have hoi : ¬ i = o := fun h => ho h.symm
          simp [hi, hmem, ho, hoi]
    · have hnone : acc[i]? = none := List.getElem?_eq_none (le_of_not_lt hi)
      by_cases ho : o = i
      · subst ho
        simp [hi, hnone]
      · simp [hi, ho, hnone]

/-- C5: a complete run of `executeParallel` — the index-tagged queue settled in any
order `order` that is a permutation of the batch indices — produces exactly the
entry of the `i`-th input call at index `i`: the results array equals the input
batch mapped through `callEntry`, so it has one entry per call, alignment is
independent of completion order, and a rejecting call contributes its failure
entry at its own index without disturbing any sibling's entry. -/
theorem C5_executeParallel_index_aligned (ex : ToolCall → Except String String)
    (calls : List ToolCall) (order : List Nat)
    (hperm : order.Perm (List.range calls.length)) :
    ParallelToolExecutor.executeParallel ex calls order =
      calls.map (fun c => some (callEntry ex c)) ∧
    (ParallelToolExecutor.executeParallel ex calls order).length = calls.length := by
  have hmain : ParallelToolExecutor.executeParallel ex calls order =
      calls.map (fun c => some (callEntry ex c)) := by
    apply List.ext_getElem?
    intro i
    rw [ParallelToolExecutor.executeParallel, parWriteFold_getElem]
    have hiff : i ∈ order ↔ i < calls.length := by
      rw [hperm.mem_iff, List.mem_range]
    by_cases hi : i < calls.length
    · have hx : calls[i]? = some (calls.get ⟨i, hi⟩) := by
        simp [List.getElem?_eq_getElem hi]
      have hD : calls.getD i default = calls.get ⟨i, hi⟩ := by
        simp [List.getD_eq_getElem?_getD, hx]
      simp [hiff.mpr hi, hi, List.length_replicate, List.getElem?_map, hx, hD]
    · have hnm : ¬ i ∈ order := fun hmm => hi (hiff.mp hmm)
      simp [hnm, hi, List.length_replicate, List.getElem?_map, List.getElem?_replicate,
        List.getElem?_eq_none (le_of_not_lt (by simpa using hi))]
  refine ⟨hmain, ?_⟩
  simp [hmain]

/-- The batch used by the C5 witness: its middle call rejects. -/
def c5Calls : List ToolCall := [{ name := "one" }, { name := "boom" }, { name := "three" }]

/-- C5, witnessed with completion order `[2, 0, 1]` (a permutation of the indices):
the results align by original index and the rejection of `boom` occupies exactly
index 1. -/
theorem C5_witness :
    ([2, 0, 1] : List Nat).Perm (List.range c5Calls.length) ∧
    (ParallelToolExecutor.executeParallel exBoom c5Calls [2, 0, 1] =
      c5Calls.map (fun c => some (callEntry exBoom c)) ∧
    (ParallelToolExecutor.executeParallel exBoom c5Calls [2, 0, 1]).length =
      c5Calls.length) :=
  ⟨by decide, C5_executeParallel_index_aligned exBoom c5Calls [2, 0, 1] (by decide)⟩

end GrokCli
